import Mathlib

/-!
Verification of the Covey.Town town-service backend (team-project-group-3b).

The development shallowly embeds the TypeScript sources:
the SpotifyClient wrapper (src/lib/SpotifyClient.ts), the request handlers
(src/requestHandlers/CoveyTownRequestHandlers.ts), and the town controller.
JavaScript Map objects become association lists keyed by identity strings;
thrown exceptions become an explicit error component; external HTTP calls
(axios, JSON.parse, the Twilio token provider) become oracle parameters.
-/

namespace CoveyTown

/-- JS Map.get: first binding for the key, if any. -/
def mapGet {β : Type} (k : String) (m : List (String × β)) : Option β :=
  match m.find? (fun kv => kv.fst == k) with
  | some kv => some kv.snd
  | none => none

/-- JS Map.set: replace the binding for the key, or append a fresh one. -/
def mapSet {β : Type} (k : String) (v : β) (m : List (String × β)) :
    List (String × β) :=
  if (m.find? (fun kv => kv.fst == k)).isSome then
    m.map (fun kv => if kv.fst == k then (k, v) else kv)
  else m ++ [(k, v)]

/-- JS Map.delete: drop the binding for the key. -/
def mapDel {β : Type} (k : String) (m : List (String × β)) :
    List (String × β) :=
  m.filter (fun kv => kv.fst != k)

/-- The format of a Spotify token (src SpotifyToken interface).  The two
fields are declared string and number in TypeScript, but at runtime the
parsed JSON may lack them, leaving the fields undefined; hence Option. -/
structure SpotifyToken where
  accessToken : Option String
  expiry : Option Int
deriving DecidableEq, Repr

/-- Result of JSON.parse as far as SpotifyClient.addTownPlayerToClient
inspects it: parse failure is None at the call site; a successful parse is
either the JSON literal null (property access on it throws a TypeError),
an object carrying optional access_token and expiry members, or some other
value (string, number, boolean, array), on which property access yields
undefined without throwing. -/
inductive JsonValue where
  | jnull
  | jobject (access_token : Option String) (expiry : Option Int)
  | jother
deriving DecidableEq, Repr

/-- The static state of SpotifyClient: _townsToPlayerMaps maps coveyTownIDs
to maps from players (identified by reference, modelled as id strings) to
their Spotify tokens. -/
structure SpotifyState where
  townsToPlayerMaps : List (String × List (String × SpotifyToken))
deriving DecidableEq, Repr

/-- SpotifyClient.getTokenForTownPlayer: look up the inner map for the town,
then the full token for the player, then its accessToken member; undefined
(None) at any step propagates. -/
def getTokenForTownPlayer (st : SpotifyState) (coveyTownID : String)
    (playerId : String) : Option String :=
  let playerToToken := mapGet coveyTownID st.townsToPlayerMaps
  let fullToken := playerToToken.bind (fun inner => mapGet playerId inner)
  fullToken.bind (fun t => t.accessToken)

/-- SpotifyClient.addTownToClient: install a fresh empty player map for the
town. -/
def addTownToClient (st : SpotifyState) (coveyTownID : String) : SpotifyState :=
  { townsToPlayerMaps := mapSet coveyTownID [] st.townsToPlayerMaps }

/-- SpotifyClient.removeTownFromClient: delete the town entry. -/
def removeTownFromClient (st : SpotifyState) (coveyTownID : String) :
    SpotifyState :=
  { townsToPlayerMaps := mapDel coveyTownID st.townsToPlayerMaps }

/-- SpotifyClient.addTownPlayerToClient.  The inner map is fetched first;
JSON.parse runs inside a try block, and on a parse failure (or on the
TypeError raised by reading access_token off a parsed null) the catch
rethrows an Error, before any mutation.  On a successful parse the token is
stored through the optional chain playerToToken?.set, a no-op when the town
was never registered.  The first component is the thrown error message, if
any; the second is the resulting static state. -/
def addTownPlayerToClient (parse : String → Option JsonValue)
    (st : SpotifyState) (coveyTownID : String) (playerId : String)
    (spotifyToken : String) : Option String × SpotifyState :=
  let playerToToken := mapGet coveyTownID st.townsToPlayerMaps
  match parse spotifyToken with
  | none => (some ("Error parsing token " ++ spotifyToken), st)
  | some JsonValue.jnull => (some ("Error parsing token " ++ spotifyToken), st)
  | some (JsonValue.jobject a e) =>
      let token : SpotifyToken := { accessToken := a, expiry := e }
      match playerToToken with
      | none => (none, st)
      | some inner =>
          let inner2 := mapSet playerId token inner
          (none, { townsToPlayerMaps := mapSet coveyTownID inner2 st.townsToPlayerMaps })
  | some JsonValue.jother =>
      let token : SpotifyToken := { accessToken := none, expiry := none }
      match playerToToken with
      | none => (none, st)
      | some inner =>
          let inner2 := mapSet playerId token inner
          (none, { townsToPlayerMaps := mapSet coveyTownID inner2 st.townsToPlayerMaps })

/-- SpotifyClient.removeTownPlayerFromClient: delete the player binding from
the inner map through the optional chain, a no-op when the town is absent. -/
def removeTownPlayerFromClient (st : SpotifyState) (coveyTownID : String)
    (playerId : String) : SpotifyState :=
  match mapGet coveyTownID st.townsToPlayerMaps with
  | none => st
  | some inner =>
      { townsToPlayerMaps := mapSet coveyTownID (mapDel playerId inner) st.townsToPlayerMaps }

/-- The currently playing item as far as the client parses it: track name,
first album artist name, and track uri. -/
structure ItemData where
  name : String
  artistName : String
  uri : String
deriving DecidableEq, Repr

/-- Response body of the currently-playing endpoint as inspected by
getCurrentPlayingSong: an optional item plus the progress field. -/
structure CurrentTrackBody where
  item : Option ItemData
  progress_ms : Int
deriving DecidableEq, Repr

/-- Response body of the player endpoint as inspected by getPlaybackState:
an optional item plus the is_playing flag. -/
structure PlaybackBody where
  item : Option ItemData
  is_playing : Bool
deriving DecidableEq, Repr

/-- SongData: display title, uri list, playback progress in ms. -/
structure SongData where
  displayTitle : String
  uris : List String
  progress : Int
deriving DecidableEq, Repr

/-- PlaybackState as returned by SpotifyClient.getPlaybackState. -/
structure PlaybackState where
  isPlaying : Bool
deriving DecidableEq, Repr

/-- SpotifyClient.getCurrentPlayingSong, with the axios GET response as an
oracle argument (None when the call failed).  Returns a SongData only when
the response body carries a truthy item. -/
def getCurrentPlayingSong (resp : Option CurrentTrackBody) : Option SongData :=
  match resp with
  | none => none
  | some body =>
      match body.item with
      | none => none
      | some it =>
          some { displayTitle := it.name ++ " by " ++ it.artistName,
                 uris := [it.uri],
                 progress := body.progress_ms }

/-- SpotifyClient.getPlaybackState, with the axios GET response as an oracle
argument (None when the call failed).  Returns a PlaybackState only when the
response body carries a truthy item; otherwise undefined. -/
def getPlaybackState (resp : Option PlaybackBody) : Option PlaybackState :=
  match resp with
  | none => none
  | some body =>
      match body.item with
      | none => none
      | some _ => some { isPlaying := body.is_playing }

/-- An axis-aligned bounding box for a conversation area. -/
structure BoundingBox where
  x : Int
  y : Int
  width : Int
  height : Int
deriving DecidableEq, Repr

/-- A server conversation area: unique label, topic, bounding box, and the
ordered list of current occupant player ids. -/
structure ConversationArea where
  label : String
  topic : String
  boundingBox : BoundingBox
  occupantsByID : List String
deriving DecidableEq, Repr

/-- A user location: coordinates, orientation, moving flag, and an optional
explicit conversation-area label. -/
structure UserLocation where
  x : Int
  y : Int
  rotation : String
  moving : Bool
  conversationLabel : Option String
deriving DecidableEq, Repr

/-- A player: generated id, display name, current location, a non-owning
label reference to the occupied conversation area, and the optional
currently-playing song. -/
structure Player where
  id : String
  userName : String
  location : UserLocation
  activeConversationArea : Option String
  spotifySong : Option SongData
deriving DecidableEq, Repr

/-- A player session: the player id paired with the session token and the
video token. -/
structure PlayerSession where
  player : String
  sessionToken : String
  videoToken : String
deriving DecidableEq, Repr

/-- Modelled from the spec: the per-town state owned by CoveyTownController
(whose source is not in the repository snapshot; only its test suite is):
id, friendly name, listing flag, update password, players, sessions,
subscribed listeners (identified by reference, modelled as id strings), and
conversation areas. -/
structure TownState where
  coveyTownID : String
  friendlyName : String
  isPubliclyListed : Bool
  townUpdatePassword : String
  players : List Player
  sessions : List PlayerSession
  listeners : List String
  conversationAreas : List ConversationArea
deriving DecidableEq, Repr

/-- The notifications of the CoveyTownListener contract. -/
inductive TownEvent where
  | onPlayerJoined (p : Player)
  | onPlayerMoved (p : Player)
  | onPlayerDisconnected (p : Player)
  | onPlayerSongUpdated (p : Player)
  | onTownDestroyed
  | onConversationAreaUpdated (a : ConversationArea)
  | onConversationAreaDestroyed (a : ConversationArea)
  | onChatMessage (m : String)
deriving DecidableEq, Repr

/-- A recorded outbound call to the external music adapter. -/
inductive MusicQuery where
  | currentTrack (coveyTownID : String) (playerId : String)
  | playbackState (coveyTownID : String) (playerId : String)
  | startPlayback (coveyTownID : String) (playerId : String) (song : SongData)
deriving DecidableEq, Repr

/-- The external collaborators of the controller, as oracles: the music
adapter answers and the video token provider (None models a failure that
propagates). -/
structure TownEnv where
  startPlayback : String → Player → SongData → Bool
  getCurrentTrack : String → Player → Option SongData
  getPlaybackState : String → Player → Option PlaybackState
  videoToken : String → String → Option String
  sessionTokenFor : String → String

/-- Result of one controller operation: the new town state, the calls made
to the music adapter, and the per-listener deliveries. -/
structure OpResult where
  state : TownState
  calls : List MusicQuery
  notes : List (String × TownEvent)
deriving DecidableEq, Repr

/-- Broadcast one event to every subscribed listener. -/
def notifyListeners (ls : List String) (e : TownEvent) :
    List (String × TownEvent) :=
  ls.map (fun l => (l, e))

/-- Modelled from the spec: listener subscription with set semantics by
reference identity (CoveyTownController.addTownListener is not in the
snapshot). -/
def addTownListener (st : TownState) (l : String) : TownState :=
  if l ∈ st.listeners then st else { st with listeners := st.listeners ++ [l] }

/-- Modelled from the spec: listener removal by reference identity
(CoveyTownController.removeTownListener is not in the snapshot). -/
def removeTownListener (st : TownState) (l : String) : TownState :=
  { st with listeners := st.listeners.filter (fun x => x != l) }

/-- Modelled from the spec: CoveyTownController.changePlayerSong (not in the
snapshot).  Calls the adapter to start playback of the song from offset
zero; on success stores the zero-progress song on the player and notifies
onPlayerSongUpdated; on failure leaves state untouched and notifies
nobody. -/
def changePlayerSong (env : TownEnv) (st : TownState) (p : Player)
    (songData : SongData) : OpResult :=
  let songFromStart : SongData := { songData with progress := 0 }
  let ok := env.startPlayback st.coveyTownID p songFromStart
  let calls := [MusicQuery.startPlayback st.coveyTownID p.id songFromStart]
  if ok then
    let p2 : Player := { p with spotifySong := some songFromStart }
    let players2 := st.players.map (fun q => if q.id == p.id then p2 else q)
    { state := { st with players := players2 },
      calls := calls,
      notes := notifyListeners st.listeners (TownEvent.onPlayerSongUpdated p2) }
  else
    { state := st, calls := calls, notes := [] }

/-- Modelled from the spec: the per-player outcome inside
CoveyTownController.updatePlayerSongs (not in the snapshot): the new song is
the returned track when the playback state reports playing and a track is
returned, and absent otherwise. -/
def songQueryOutcome (env : TownEnv) (coveyTownID : String) (p : Player) :
    Option SongData :=
  match env.getPlaybackState coveyTownID p, env.getCurrentTrack coveyTownID p with
  | some ps, some s => if ps.isPlaying then some s else none
  | _, _ => none

/-- Modelled from the spec: CoveyTownController.updatePlayerSongs (not in
the snapshot).  For every currently-joined player it independently issues
one currently-playing query and one playback-state query, sets the song
field accordingly, and notifies onPlayerSongUpdated when a playing track
was found. -/
def updatePlayerSongs (env : TownEnv) (st : TownState) : OpResult :=
  let queriesFor := fun (p : Player) =>
    [MusicQuery.currentTrack st.coveyTownID p.id,
      MusicQuery.playbackState st.coveyTownID p.id]
  let notesFor := fun (p : Player) =>
    match songQueryOutcome env st.coveyTownID p with
    | some s =>
        notifyListeners st.listeners
          (TownEvent.onPlayerSongUpdated { p with spotifySong := some s })
    | none => []
  let players2 :=
    st.players.map (fun p => { p with spotifySong := songQueryOutcome env st.coveyTownID p })
  { state := { st with players := players2 },
    calls := st.players.flatMap queriesFor,
    notes := st.players.flatMap notesFor }

/-- Modelled from the spec: the containment test for conversation-area
bounding boxes (the controller source is not in the snapshot; the spec
leaves the boundary tie-break implementation-defined, so this model fixes
inclusive-on-low-edge, exclusive-on-high-edge). -/
def boxContains (b : BoundingBox) (px py : Int) : Bool :=
  decide (b.x ≤ px) && decide (px < b.x + b.width) &&
  decide (b.y ≤ py) && decide (py < b.y + b.height)

/-- Modelled from the spec: removing a departing player id from its prior
conversation area, destroying the area when its occupant list becomes empty
and notifying onConversationAreaDestroyed (sub-step of updatePlayerLocation
and destroySession; the controller source is not in the snapshot). -/
def removeFromArea (listeners : List String) (areas : List ConversationArea)
    (oldLabel : Option String) (pid : String) :
    List ConversationArea × List (String × TownEvent) :=
  match oldLabel with
  | none => (areas, [])
  | some ol =>
      match areas.find? (fun a => a.label == ol) with
      | none => (areas, [])
      | some oldA =>
          let remaining := oldA.occupantsByID.filter (fun q => q != pid)
          if remaining.isEmpty then
            (areas.filter (fun a => a.label != ol),
              notifyListeners listeners
                (TownEvent.onConversationAreaDestroyed { oldA with occupantsByID := remaining }))
          else
            (areas.map (fun a => if a.label == ol then { a with occupantsByID := remaining } else a),
              [])

/-- Modelled from the spec: the add half of the membership change in
CoveyTownController.updatePlayerLocation (not in the snapshot): the arriving
player id is appended to the occupant list of the new area, if any. -/
def addToAreas (areas : List ConversationArea)
    (newArea : Option ConversationArea) (pid : String) :
    List ConversationArea :=
  match newArea with
  | none => areas
  | some na =>
      areas.map (fun (a : ConversationArea) =>
        if a.label == na.label then { a with occupantsByID := a.occupantsByID ++ [pid] } else a)

/-- Modelled from the spec: the onConversationAreaUpdated notification that
accompanies an arrival into a conversation area, when there is one. -/
def addToAreaNotes (listeners : List String)
    (newArea : Option ConversationArea) (pid : String) :
    List (String × TownEvent) :=
  match newArea with
  | none => []
  | some na =>
      notifyListeners listeners
        (TownEvent.onConversationAreaUpdated
          { na with occupantsByID := na.occupantsByID ++ [pid] })

/-- Modelled from the spec: CoveyTownController.updatePlayerLocation (not in
the snapshot).  An explicit conversationLabel is authoritative; otherwise
membership is computed by bounding-box containment.  On a membership change
the player id is removed from the prior area (destroy-if-empty) and added to
the new one with an onConversationAreaUpdated notification; the location is
stored and onPlayerMoved fires unconditionally. -/
def updatePlayerLocation (st : TownState) (p : Player)
    (newLocation : UserLocation) : OpResult :=
  let newArea : Option ConversationArea :=
    match newLocation.conversationLabel with
    | some lbl => st.conversationAreas.find? (fun a => a.label == lbl)
    | none =>
        st.conversationAreas.find?
          (fun a => boxContains a.boundingBox newLocation.x newLocation.y)
  let newLabel := newArea.map ConversationArea.label
  let oldLabel := p.activeConversationArea
  let p2 : Player := { p with location := newLocation, activeConversationArea := newLabel }
  let players2 := st.players.map (fun q => if q.id == p.id then p2 else q)
  let movedNotes := notifyListeners st.listeners (TownEvent.onPlayerMoved p2)
  if oldLabel == newLabel then
    { state := { st with players := players2 }, calls := [], notes := movedNotes }
  else
    let removed := removeFromArea st.listeners st.conversationAreas oldLabel p.id
    let areas2 := addToAreas removed.fst newArea p.id
    { state := { st with players := players2, conversationAreas := areas2 },
      calls := [],
      notes := removed.snd ++ addToAreaNotes st.listeners newArea p.id ++ movedNotes }

/-- Modelled from the spec: CoveyTownController.addConversationArea (not in
the snapshot): fails without mutation on a label collision, otherwise
appends the supplied area. -/
def addConversationArea (st : TownState) (area : ConversationArea) :
    Bool × TownState :=
  if st.conversationAreas.any (fun a => a.label == area.label) then
    (false, st)
  else
    (true, { st with conversationAreas := st.conversationAreas ++ [area] })

/-- Modelled from the spec: CoveyTownController.addPlayer (not in the
snapshot).  Requests a video token keyed by town id and player id; a
provider failure propagates with no session half-created; on success the
session is stored, the player is added, and onPlayerJoined fires. -/
def addPlayer (env : TownEnv) (st : TownState) (p : Player) :
    Except String (PlayerSession × TownState × List (String × TownEvent)) :=
  match env.videoToken st.coveyTownID p.id with
  | none => Except.error "video token provider failed"
  | some vtok =>
      let s : PlayerSession :=
        { player := p.id, sessionToken := env.sessionTokenFor p.id, videoToken := vtok }
      Except.ok (s,
        { st with players := st.players ++ [p], sessions := st.sessions ++ [s] },
        notifyListeners st.listeners (TownEvent.onPlayerJoined p))

/-- Modelled from the spec: CoveyTownController.destroySession (not in the
snapshot): removes the session player from its conversation area
(destroy-if-empty rule), drops the player and the session, and notifies
onPlayerDisconnected. -/
def destroySession (st : TownState) (s : PlayerSession) :
    TownState × List (String × TownEvent) :=
  match st.players.find? (fun p => p.id == s.player) with
  | none =>
      ({ st with sessions := st.sessions.filter (fun t => t.sessionToken != s.sessionToken) }, [])
  | some p =>
      let removed := removeFromArea st.listeners st.conversationAreas p.activeConversationArea p.id
      ({ st with
          players := st.players.filter (fun q => q.id != p.id),
          sessions := st.sessions.filter (fun t => t.sessionToken != s.sessionToken),
          conversationAreas := removed.fst },
        removed.snd ++ notifyListeners st.listeners (TownEvent.onPlayerDisconnected p))

/-- Modelled from the spec: CoveyTownController.disconnectAllPlayers (not in
the snapshot): notifies onTownDestroyed, then drops all listener
subscriptions and clears player and session state. -/
def disconnectAllPlayers (st : TownState) :
    TownState × List (String × TownEvent) :=
  ({ st with players := [], sessions := [], listeners := [] },
    notifyListeners st.listeners TownEvent.onTownDestroyed)

/-- Modelled from the spec: CoveyTownController.onChatMessage (not in the
snapshot): pure fan-out, no state mutation. -/
def onChatMessage (st : TownState) (m : String) :
    TownState × List (String × TownEvent) :=
  (st, notifyListeners st.listeners (TownEvent.onChatMessage m))

/-- The controller operations that emit notifications. -/
inductive TownOp where
  | updatePlayerLocation (p : Player) (loc : UserLocation)
  | destroySession (s : PlayerSession)
  | addPlayer (p : Player)
  | disconnectAllPlayers
  | updatePlayerSongs
  | changePlayerSong (p : Player) (song : SongData)
  | onChatMessage (m : String)
deriving DecidableEq, Repr

/-- One controller operation as a step on the town state; a failed addPlayer
propagates and leaves no state change and no notification. -/
def stepOp (env : TownEnv) (op : TownOp) (st : TownState) : OpResult :=
  match op with
  | TownOp.updatePlayerLocation p loc => updatePlayerLocation st p loc
  | TownOp.destroySession s =>
      let r := destroySession st s
      { state := r.fst, calls := [], notes := r.snd }
  | TownOp.addPlayer p =>
      match addPlayer env st p with
      | Except.error _ => { state := st, calls := [], notes := [] }
      | Except.ok (_, st2, notes2) => { state := st2, calls := [], notes := notes2 }
  | TownOp.disconnectAllPlayers =>
      let r := disconnectAllPlayers st
      { state := r.fst, calls := [], notes := r.snd }
  | TownOp.updatePlayerSongs => updatePlayerSongs env st
  | TownOp.changePlayerSong p song => changePlayerSong env st p song
  | TownOp.onChatMessage m =>
      let r := onChatMessage st m
      { state := r.fst, calls := [], notes := r.snd }

/-- Run a sequence of controller operations, concatenating the adapter calls
and the deliveries. -/
def runOps (env : TownEnv) (ops : List TownOp) (st : TownState) : OpResult :=
  match ops with
  | [] => { state := st, calls := [], notes := [] }
  | op :: rest =>
      let r := stepOp env op st
      let r2 := runOps env rest r.state
      { state := r2.state, calls := r.calls ++ r2.calls, notes := r.notes ++ r2.notes }

/-- Modelled from the spec: CoveyTownsStore.createTown (the store source is
not in the snapshot): a fresh identifier and a random update password come
from the caller as oracles; the town starts with no players, sessions,
listeners or areas. -/
def createTown (freshId freshPassword friendlyName : String)
    (isPubliclyListed : Bool) : TownState :=
  { coveyTownID := freshId,
    friendlyName := friendlyName,
    isPubliclyListed := isPubliclyListed,
    townUpdatePassword := freshPassword,
    players := [],
    sessions := [],
    listeners := [],
    conversationAreas := [] }

/-- Modelled from the spec: CoveyTownsStore.getControllerForTown (not in the
snapshot): lookup by town id. -/
def getControllerForTown (store : List TownState) (coveyTownID : String) :
    Option TownState :=
  store.find? (fun t => t.coveyTownID == coveyTownID)

/-- Modelled from the spec: CoveyTownsStore.deleteTown (not in the
snapshot): succeeds only on exact password match, in which case the town
(after forcibly disconnecting its players) leaves the index; on any
mismatch or unknown id the store is untouched. -/
def deleteTown (store : List TownState) (coveyTownID password : String) :
    Bool × List TownState :=
  match getControllerForTown store coveyTownID with
  | none => (false, store)
  | some t =>
      if t.townUpdatePassword == password then
        (true, store.filter (fun u => u.coveyTownID != coveyTownID))
      else
        (false, store)

/-- Modelled from the spec: CoveyTownsStore.updateTown (not in the
snapshot): succeeds only on password match with a semantically valid update
(an empty new name is rejected); only the provided fields change. -/
def updateTown (store : List TownState) (coveyTownID password : String)
    (friendlyName : Option String) (isPubliclyListed : Option Bool) :
    Bool × List TownState :=
  match getControllerForTown store coveyTownID with
  | none => (false, store)
  | some t =>
      if t.townUpdatePassword == password then
        if friendlyName == some "" then (false, store)
        else
          let upd := fun (u : TownState) =>
            if u.coveyTownID == coveyTownID then
              { u with friendlyName := friendlyName.getD u.friendlyName,
                       isPubliclyListed := isPubliclyListed.getD u.isPubliclyListed }
            else u
          (true, store.map upd)
      else
        (false, store)

/-- A listed-town entry as produced for a town list request. -/
structure TownInfo where
  coveyTownID : String
  friendlyName : String
  currentOccupancy : Nat
deriving DecidableEq, Repr

/-- Modelled from the spec: CoveyTownsStore.getTowns (not in the snapshot):
publicly listed towns only, with their occupancy. -/
def getTowns (store : List TownState) : List TownInfo :=
  (store.filter (fun t => t.isPubliclyListed)).map
    (fun t => { coveyTownID := t.coveyTownID,
                friendlyName := t.friendlyName,
                currentOccupancy := t.players.length })

/-- The envelope that wraps any response from the server. -/
structure ResponseEnvelope (T : Type) where
  isOK : Bool
  message : Option String
  response : Option T
deriving DecidableEq, Repr

/-- The whole server-side mutable state the request handlers touch: the
town registry plus the SpotifyClient static maps. -/
structure ServerState where
  store : List TownState
  spotify : SpotifyState
deriving DecidableEq, Repr

/-- The format of a request to join a town. -/
structure TownJoinRequest where
  userName : String
  coveyTownID : String
  spotifySessionToken : Option String
deriving DecidableEq, Repr

/-- The format of a response to a join request. -/
structure TownJoinResponse where
  coveyUserID : String
  coveySessionToken : String
  providerVideoToken : String
  currentPlayers : List Player
  friendlyName : String
  isPubliclyListed : Bool
  conversationAreas : List ConversationArea
deriving DecidableEq, Repr

/-- Modelled from the spec: the Player constructor (the Player class source
is not in the snapshot): a generated id, the supplied display name, a
default location, and no area or song. -/
def newPlayerNamed (freshPlayerId userName : String) : Player :=
  { id := freshPlayerId,
    userName := userName,
    location := { x := 0, y := 0, rotation := "front", moving := false, conversationLabel := none },
    activeConversationArea := none,
    spotifySong := none }

/-- townJoinHandler from CoveyTownRequestHandlers.ts.  An unknown town id
yields a failure envelope; otherwise a Player is constructed and admitted
via addPlayer, whose failure propagates uncaught (Except.error); when the
request carries a Spotify session token, SpotifyClient.addTownPlayerToClient
runs and its Error also propagates uncaught; the assert on the video token
throws when the token is an empty (falsy) string; otherwise the success
envelope is assembled from the controller state. -/
def townJoinHandler (env : TownEnv) (parse : String → Option JsonValue)
    (freshPlayerId : String) (st : ServerState) (req : TownJoinRequest) :
    Except String (ResponseEnvelope TownJoinResponse × ServerState) :=
  match getControllerForTown st.store req.coveyTownID with
  | none =>
      Except.ok ({ isOK := false, message := some "Error: No such town", response := none }, st)
  | some town =>
      let newPlayer := newPlayerNamed freshPlayerId req.userName
      match addPlayer env town newPlayer with
      | Except.error e => Except.error e
      | Except.ok (newSession, town2, _) =>
          let store2 :=
            st.store.map (fun t => if t.coveyTownID == req.coveyTownID then town2 else t)
          let linked : Except String SpotifyState :=
            match req.spotifySessionToken with
            | none => Except.ok st.spotify
            | some cred =>
                let r := addTownPlayerToClient parse st.spotify req.coveyTownID newPlayer.id cred
                match r.fst with
                | some err => Except.error err
                | none => Except.ok r.snd
          match linked with
          | Except.error e => Except.error e
          | Except.ok sp2 =>
              if newSession.videoToken == "" then
                Except.error "assert failed: newSession.videoToken"
              else
                Except.ok
                  ({ isOK := true,
                     message := none,
                     response := some
                       { coveyUserID := newPlayer.id,
                         coveySessionToken := newSession.sessionToken,
                         providerVideoToken := newSession.videoToken,
                         currentPlayers := town2.players,
                         friendlyName := town2.friendlyName,
                         isPubliclyListed := town2.isPubliclyListed,
                         conversationAreas := town2.conversationAreas } },
                    { store := store2, spotify := sp2 })

/-- townListHandler from CoveyTownRequestHandlers.ts: always a success
envelope carrying the listed towns. -/
def townListHandler (st : ServerState) :
    ResponseEnvelope (List TownInfo) × ServerState :=
  ({ isOK := true, message := none, response := some (getTowns st.store) }, st)

/-- The payload sent by the client to create a town. -/
structure TownCreateRequest where
  friendlyName : String
  isPubliclyListed : Bool
deriving DecidableEq, Repr

/-- The response for a town create request. -/
structure TownCreateResponse where
  coveyTownID : String
  coveyTownPassword : String
deriving DecidableEq, Repr

/-- townCreateHandler from CoveyTownRequestHandlers.ts: an empty friendly
name yields a failure envelope; otherwise the town is created, registered
with SpotifyClient.addTownToClient, and a success envelope is returned. -/
def townCreateHandler (freshId freshPassword : String) (st : ServerState)
    (req : TownCreateRequest) :
    ResponseEnvelope TownCreateResponse × ServerState :=
  if req.friendlyName.length == 0 then
    ({ isOK := false, message := some "FriendlyName must be specified", response := none }, st)
  else
    let newTown := createTown freshId freshPassword req.friendlyName req.isPubliclyListed
    ({ isOK := true,
       message := none,
       response := some { coveyTownID := newTown.coveyTownID,
                          coveyTownPassword := newTown.townUpdatePassword } },
      { store := st.store ++ [newTown],
        spotify := addTownToClient st.spotify newTown.coveyTownID })

/-- The payload sent by the client to delete a town. -/
structure TownDeleteRequest where
  coveyTownID : String
  coveyTownPassword : String
deriving DecidableEq, Repr

/-- townDeleteHandler from CoveyTownRequestHandlers.ts: asks the store to
delete the town, then calls SpotifyClient.removeTownFromClient
unconditionally, whether or not the password matched; the envelope reports
the store outcome. -/
def townDeleteHandler (st : ServerState) (req : TownDeleteRequest) :
    ResponseEnvelope Unit × ServerState :=
  let r := deleteTown st.store req.coveyTownID req.coveyTownPassword
  let sp2 := removeTownFromClient st.spotify req.coveyTownID
  ({ isOK := r.fst,
     message := if r.fst then none
                else some "Invalid password. Please double check your town update password.",
     response := some () },
    { store := r.snd, spotify := sp2 })

/-- The payload sent by the client to update a town. -/
structure TownUpdateRequest where
  coveyTownID : String
  coveyTownPassword : String
  friendlyName : Option String
  isPubliclyListed : Option Bool
deriving DecidableEq, Repr

/-- townUpdateHandler from CoveyTownRequestHandlers.ts: delegates to the
store and reports the outcome in the envelope. -/
def townUpdateHandler (st : ServerState) (req : TownUpdateRequest) :
    ResponseEnvelope Unit × ServerState :=
  let r := updateTown st.store req.coveyTownID req.coveyTownPassword
    req.friendlyName req.isPubliclyListed
  ({ isOK := r.fst,
     message := if r.fst then none
                else some "Invalid password or update values specified. Please double check your town update password.",
     response := some () },
    { st with store := r.snd })

/-- A stand-in for JSON.parse on the concrete inputs used below: the string
consisting of the four characters null parses successfully to the JSON null
value; every other input is treated as unparseable. -/
def parseNullOnly : String → Option JsonValue :=
  fun s => if s == "null" then some JsonValue.jnull else none

/-- A stand-in for JSON.parse that parses every input to an object carrying
an access_token and expiry member. -/
def parseAsToken : String → Option JsonValue :=
  fun _ => some (JsonValue.jobject (some "tok") (some 3600))

/-- A concrete test adapter whose startPlayback always succeeds. -/
def envPlaybackOk : TownEnv :=
  { startPlayback := fun _ _ _ => true,
    getCurrentTrack := fun _ _ => none,
    getPlaybackState := fun _ _ => none,
    videoToken := fun _ _ => some "video-token",
    sessionTokenFor := fun pid => pid ++ "-session" }

/-- A concrete test adapter whose video token provider fails for the town
townA and succeeds elsewhere, and that reports a playing test track. -/
def envVideoFailA : TownEnv :=
  { startPlayback := fun _ _ _ => false,
    getCurrentTrack := fun _ _ => some { displayTitle := "Testing Song by Tests",
                                         uris := ["spotify:track:t35t1ng123ur1"],
                                         progress := 2000 },
    getPlaybackState := fun _ _ => some { isPlaying := true },
    videoToken := fun tid _ => if tid == "townA" then none else some "vt",
    sessionTokenFor := fun _ => "session" }

/-- A concrete test song with a nonzero progress offset. -/
def testSong : SongData :=
  { displayTitle := "Testing Song by Tests",
    uris := ["spotify:track:t35t1ng123ur1"],
    progress := 2000 }

/-- A concrete test player. -/
def testPlayer : Player := newPlayerNamed "p1" "test player"

/-- A concrete conversation area whose box is far from the test location. -/
def testArea : ConversationArea :=
  { label := "lbl",
    topic := "topic",
    boundingBox := { x := 10, y := 10, width := 5, height := 5 },
    occupantsByID := [] }

/-- A concrete location outside the test area box that still names the area
explicitly. -/
def testLocOutside : UserLocation :=
  { x := 25, y := 25, rotation := "front", moving := false,
    conversationLabel := some "lbl" }

/-- A concrete test town with one player and two listeners. -/
def testTown : TownState :=
  { coveyTownID := "townA",
    friendlyName := "FriendlyNameTest",
    isPubliclyListed := true,
    townUpdatePassword := "secret",
    players := [testPlayer],
    sessions := [],
    listeners := ["l1", "l2"],
    conversationAreas := [] }

/-- The test town with the test conversation area installed. -/
def testTownWithArea : TownState :=
  { testTown with conversationAreas := [testArea] }

/-- The test town under a second id, for join scenarios that need a town
whose video token provider succeeds. -/
def testTownB : TownState :=
  { testTown with coveyTownID := "townB" }

/-- A server state holding the test town, whose SpotifyClient maps carry an
entry for that town with one linked player. -/
def serverStateA : ServerState :=
  { store := [testTown],
    spotify := { townsToPlayerMaps :=
      [("townA", [("p1", { accessToken := some "tok", expiry := some 3600 })])] } }

/-- A delete request for the test town with a wrong password. -/
def deleteReqWrongPw : TownDeleteRequest :=
  { coveyTownID := "townA", coveyTownPassword := "wrong" }

/-- A server state holding both test towns with no Spotify entries. -/
def serverStateAB : ServerState :=
  { store := [testTown, testTownB], spotify := SpotifyState.mk [] }

/-- A delivery list broadcasts over a listener list when every delivery goes
to a subscribed listener and every delivered event reaches every subscribed
listener. -/
def Broadcasts (ls : List String) (ns : List (String × TownEvent)) : Prop :=
  ∀ pr ∈ ns, pr.fst ∈ ls ∧ ∀ l2 ∈ ls, (l2, pr.snd) ∈ ns

/-- C10: getPlaybackState returns a playback state exactly when the external
response body contains a current item; a body without an item yields absent
even if it carries an is_playing flag, indistinguishable from a failed
call. -/
theorem getPlaybackState_requires_item :
    ∀ resp : Option PlaybackBody,
      (((getPlaybackState resp).isSome) ↔
        ∃ b it, resp = some b ∧ b.item = some it) ∧
      (∀ flag : Bool,
        getPlaybackState (some { item := none, is_playing := flag }) =
          getPlaybackState none) := by
  intro resp
  refine ⟨⟨?_, ?_⟩, ?_⟩
  · intro h
    cases resp with
    | none => simp [getPlaybackState] at h
    | some b =>
        cases hb : b.item with
        | none => simp [getPlaybackState, hb] at h
        | some it => exact ⟨b, it, rfl, hb⟩
  · rintro ⟨b, it, rfl, hb⟩
    simp [getPlaybackState, hb]
  · intro flag
    rfl

/-- C8: a credential string that JSON.parse rejects makes
addTownPlayerToClient throw the parsing Error and leaves the
town-to-player-token maps unchanged. -/
theorem addTownPlayerToClient_unparseable
    (parse : String → Option JsonValue) (st : SpotifyState)
    (coveyTownID playerId cred : String)
    (h : parse cred = none) :
    (addTownPlayerToClient parse st coveyTownID playerId cred).fst =
        some ("Error parsing token " ++ cred) ∧
    (addTownPlayerToClient parse st coveyTownID playerId cred).snd = st := by
  simp [addTownPlayerToClient, h]

/-- Witness for C8 at a concrete unparseable credential. -/
theorem addTownPlayerToClient_unparseable_witness :
    (addTownPlayerToClient (fun _ => none)
        { townsToPlayerMaps := [("townA", [])] } "townA" "p1" "oops").fst =
      some ("Error parsing token " ++ "oops") ∧
    (addTownPlayerToClient (fun _ => none)
        { townsToPlayerMaps := [("townA", [])] } "townA" "p1" "oops").snd =
      { townsToPlayerMaps := [("townA", [])] } :=
  addTownPlayerToClient_unparseable (fun _ => none)
    { townsToPlayerMaps := [("townA", [])] } "townA" "p1" "oops" rfl

/-- C9 counterexample: the credential null is parseable as JSON, yet
addTownPlayerToClient raises (reading access_token off the parsed null
throws, and the catch rethrows), so the call does not return normally. -/
theorem addTownPlayerToClient_null_credential_raises :
    parseNullOnly "null" ≠ none ∧
    mapGet "townA" (SpotifyState.mk []).townsToPlayerMaps = none ∧
    (addTownPlayerToClient parseNullOnly (SpotifyState.mk [])
        "townA" "p1" "null").fst ≠ none := by
  refine ⟨?_, rfl, ?_⟩
  · simp [parseNullOnly]
  · simp [addTownPlayerToClient, parseNullOnly, mapGet]

/-- C9 (amended): a credential that parses to a non-null JSON value, for a
town id that was never registered (or was removed), returns normally,
stores nothing, and a subsequent getTokenForTownPlayer for that town and
player returns undefined. -/
theorem addTownPlayerToClient_unregistered_town
    (parse : String → Option JsonValue) (st : SpotifyState)
    (coveyTownID playerId cred : String) (v : JsonValue)
    (hp : parse cred = some v) (hv : v ≠ JsonValue.jnull)
    (ht : mapGet coveyTownID st.townsToPlayerMaps = none) :
    (addTownPlayerToClient parse st coveyTownID playerId cred).fst = none ∧
    (addTownPlayerToClient parse st coveyTownID playerId cred).snd = st ∧
    getTokenForTownPlayer
      (addTownPlayerToClient parse st coveyTownID playerId cred).snd
      coveyTownID playerId = none := by
  cases v with
  | jnull => exact absurd rfl hv
  | jobject a e =>
      refine ⟨?_, ?_, ?_⟩ <;>
        simp [addTownPlayerToClient, hp, ht, getTokenForTownPlayer]
  | jother =>
      refine ⟨?_, ?_, ?_⟩ <;>
        simp [addTownPlayerToClient, hp, ht, getTokenForTownPlayer]

/-- Witness for C9 (amended) at a concrete object credential and an empty
client state. -/
theorem addTownPlayerToClient_unregistered_town_witness :
    (addTownPlayerToClient parseAsToken (SpotifyState.mk []) "townA" "p1"
        "cred").fst = none ∧
    (addTownPlayerToClient parseAsToken (SpotifyState.mk []) "townA" "p1"
        "cred").snd = SpotifyState.mk [] ∧
    getTokenForTownPlayer
      (addTownPlayerToClient parseAsToken (SpotifyState.mk []) "townA" "p1"
        "cred").snd "townA" "p1" = none :=
  addTownPlayerToClient_unregistered_town parseAsToken (SpotifyState.mk [])
    "townA" "p1" "cred" (JsonValue.jobject (some "tok") (some 3600)) rfl
    (by simp) rfl

/-- Broadcasting one event to a listener list delivers to a given listener
as often as the listener occurs in the list. -/
theorem count_notifyListeners (ls : List String) (l : String) (e : TownEvent) :
    (notifyListeners ls e).count (l, e) = ls.count l := by
  induction ls with
  | nil => rfl
  | cons x xs ih =>
      simp only [notifyListeners, List.map_cons, List.count_cons] at ih ⊢
      rw [ih]
      simp [Prod.ext_iff]

/-- C2: changePlayerSong invokes the adapter startPlayback exactly once,
with the same town id, player, title and uri list, but with the progress
offset replaced by zero, whatever progress the caller supplied. -/
theorem changePlayerSong_calls_startPlayback_from_zero
    (env : TownEnv) (st : TownState) (p : Player) (songData : SongData) :
    (changePlayerSong env st p songData).calls =
      [MusicQuery.startPlayback st.coveyTownID p.id
        { displayTitle := songData.displayTitle,
          uris := songData.uris,
          progress := 0 }] := by
  cases h : env.startPlayback st.coveyTownID p { songData with progress := 0 } <;>
    simp [changePlayerSong, h]

/-- C1: when the adapter reports success, changePlayerSong stores the song
with progress forced to zero on the player and delivers onPlayerSongUpdated
exactly once to each currently-subscribed listener (and delivers nothing
else); when the adapter reports failure, the state is unchanged and no
listener is notified. -/
theorem changePlayerSong_success_and_failure
    (env : TownEnv) (st : TownState) (p : Player) (songData : SongData)
    (hnd : st.listeners.Nodup) :
    (env.startPlayback st.coveyTownID p { songData with progress := 0 } = true →
      (∀ q ∈ (changePlayerSong env st p songData).state.players,
        q.id = p.id → q.spotifySong = some { songData with progress := 0 }) ∧
      (∀ l ∈ st.listeners,
        (changePlayerSong env st p songData).notes.count
          (l, TownEvent.onPlayerSongUpdated
            { p with spotifySong := some { songData with progress := 0 } }) = 1) ∧
      (∀ pr ∈ (changePlayerSong env st p songData).notes,
        pr.fst ∈ st.listeners ∧
        pr.snd = TownEvent.onPlayerSongUpdated
          { p with spotifySong := some { songData with progress := 0 } })) ∧
    (env.startPlayback st.coveyTownID p { songData with progress := 0 } = false →
      (changePlayerSong env st p songData).state = st ∧
      (changePlayerSong env st p songData).notes = []) := by
  constructor
  · intro hok
    refine ⟨?_, ?_, ?_⟩
    · intro q hq hid
      simp only [changePlayerSong, hok, if_true] at hq
      simp only [List.mem_map] at hq
      obtain ⟨q0, _, rfl⟩ := hq
      by_cases h0 : q0.id == p.id
      · simp [h0]
      · simp only [h0, if_neg, Bool.false_eq_true, ite_false] at hid ⊢
        exact absurd (by exact beq_iff_eq.mpr hid) (by simpa using h0)
    · intro l hl
      simp only [changePlayerSong, hok, if_true]
      rw [count_notifyListeners]
      exact List.count_eq_one_of_mem hnd hl
    · intro pr hpr
      simp only [changePlayerSong, hok, if_true, notifyListeners, List.mem_map] at hpr
      obtain ⟨l0, hl0, rfl⟩ := hpr
      exact ⟨hl0, rfl⟩
  · intro hfail
    simp [changePlayerSong, hfail]

/-- Witness for C1 at a concrete town, player and song, with an adapter
that always reports success. -/
theorem changePlayerSong_success_and_failure_witness :
    testTown.listeners.Nodup ∧
    ((envPlaybackOk.startPlayback testTown.coveyTownID testPlayer
        { testSong with progress := 0 } = true →
      (∀ q ∈ (changePlayerSong envPlaybackOk testTown testPlayer testSong).state.players,
        q.id = testPlayer.id →
          q.spotifySong = some { testSong with progress := 0 }) ∧
      (∀ l ∈ testTown.listeners,
        (changePlayerSong envPlaybackOk testTown testPlayer testSong).notes.count
          (l, TownEvent.onPlayerSongUpdated
            { testPlayer with spotifySong := some { testSong with progress := 0 } }) = 1) ∧
      (∀ pr ∈ (changePlayerSong envPlaybackOk testTown testPlayer testSong).notes,
        pr.fst ∈ testTown.listeners ∧
        pr.snd = TownEvent.onPlayerSongUpdated
          { testPlayer with spotifySong := some { testSong with progress := 0 } })) ∧
    (envPlaybackOk.startPlayback testTown.coveyTownID testPlayer
        { testSong with progress := 0 } = false →
      (changePlayerSong envPlaybackOk testTown testPlayer testSong).state = testTown ∧
      (changePlayerSong envPlaybackOk testTown testPlayer testSong).notes = [])) :=
  ⟨by decide,
    changePlayerSong_success_and_failure envPlaybackOk testTown testPlayer
      testSong (by decide)⟩

/-- Counting currently-playing queries in the query log of a player list:
one per matching player id. -/
theorem count_currentTrack_queries (c x : String) (l : List Player) :
    (l.flatMap (fun p =>
        [MusicQuery.currentTrack c p.id, MusicQuery.playbackState c p.id])).count
      (MusicQuery.currentTrack c x) = (l.map Player.id).count x := by
  induction l with
  | nil => rfl
  | cons q t ih =>
      simp only [List.flatMap_cons, List.map_cons, List.count_append,
        List.count_cons, List.count_nil, List.cons_append, List.nil_append, ih]
      by_cases h : x = q.id
      · subst h; simp
      · simp [h]

/-- Counting playback-state queries in the query log of a player list: one
per matching player id. -/
theorem count_playbackState_queries (c x : String) (l : List Player) :
    (l.flatMap (fun p =>
        [MusicQuery.currentTrack c p.id, MusicQuery.playbackState c p.id])).count
      (MusicQuery.playbackState c x) = (l.map Player.id).count x := by
  induction l with
  | nil => rfl
  | cons q t ih =>
      simp only [List.flatMap_cons, List.map_cons, List.count_append,
        List.count_cons, List.count_nil, List.cons_append, List.nil_append, ih]
      by_cases h : x = q.id
      · subst h; simp
      · simp [h]

/-- C3: each updatePlayerSongs call issues exactly one currently-playing
query and exactly one playback-state query per currently-joined player, and
sets each player song field to the returned track exactly when the playback
state reports playing and a track is returned, clearing it otherwise. -/
theorem updatePlayerSongs_queries_and_updates
    (env : TownEnv) (st : TownState)
    (hnd : (st.players.map Player.id).Nodup) :
    (∀ p ∈ st.players,
      (updatePlayerSongs env st).calls.count
        (MusicQuery.currentTrack st.coveyTownID p.id) = 1 ∧
      (updatePlayerSongs env st).calls.count
        (MusicQuery.playbackState st.coveyTownID p.id) = 1) ∧
    (∀ p ∈ st.players, ∀ q ∈ (updatePlayerSongs env st).state.players,
      q.id = p.id →
        (match env.getPlaybackState st.coveyTownID p,
               env.getCurrentTrack st.coveyTownID p with
         | some ps, some s =>
             q.spotifySong = if ps.isPlaying then some s else none
         | _, _ => q.spotifySong = none)) := by
  constructor
  · intro p hp
    have hmem : p.id ∈ st.players.map Player.id := List.mem_map_of_mem _ hp
    constructor
    · simp only [updatePlayerSongs]
      rw [count_currentTrack_queries]
      exact List.count_eq_one_of_mem hnd hmem
    · simp only [updatePlayerSongs]
      rw [count_playbackState_queries]
      exact List.count_eq_one_of_mem hnd hmem
  · intro p hp q hq hid
    simp only [updatePlayerSongs, List.mem_map] at hq
    obtain ⟨p0, hp0, rfl⟩ := hq
    have : p0 = p := List.inj_on_of_nodup_map hnd hp0 hp hid
    subst this
    cases hps : env.getPlaybackState st.coveyTownID p0 with
    | none => simp [songQueryOutcome, hps]
    | some ps =>
        cases hct : env.getCurrentTrack st.coveyTownID p0 with
        | none => simp [songQueryOutcome, hps, hct]
        | some s => simp [songQueryOutcome, hps, hct]

/-- Witness for C3 at a concrete town with one player and an adapter that
reports a playing track. -/
theorem updatePlayerSongs_queries_and_updates_witness :
    (testTown.players.map Player.id).Nodup ∧
    ((∀ p ∈ testTown.players,
      (updatePlayerSongs envVideoFailA testTown).calls.count
        (MusicQuery.currentTrack testTown.coveyTownID p.id) = 1 ∧
      (updatePlayerSongs envVideoFailA testTown).calls.count
        (MusicQuery.playbackState testTown.coveyTownID p.id) = 1) ∧
    (∀ p ∈ testTown.players,
      ∀ q ∈ (updatePlayerSongs envVideoFailA testTown).state.players,
      q.id = p.id →
        (match envVideoFailA.getPlaybackState testTown.coveyTownID p,
               envVideoFailA.getCurrentTrack testTown.coveyTownID p with
         | some ps, some s =>
             q.spotifySong = if ps.isPlaying then some s else none
         | _, _ => q.spotifySong = none))) :=
  ⟨by decide,
    updatePlayerSongs_queries_and_updates envVideoFailA testTown (by decide)⟩

/-- Removing a departing player from one area keeps every area with a
different label in the list, untouched. -/
theorem removeFromArea_keeps_area
    (listeners : List String) (areas : List ConversationArea)
    (oldLabel : Option String) (pid : String) (a : ConversationArea)
    (ha : a ∈ areas) (hne : oldLabel ≠ some a.label) :
    a ∈ (removeFromArea listeners areas oldLabel pid).fst := by
  cases oldLabel with
  | none => simpa [removeFromArea] using ha
  | some ol =>
      have hol : (a.label == ol) = false := by
        apply beq_eq_false_iff_ne.mpr
        intro h
        exact hne (by rw [h])
      simp only [removeFromArea]
      cases hfind : areas.find? (fun b => b.label == ol) with
      | none => simpa using ha
      | some oldA =>
          by_cases hemp : (oldA.occupantsByID.filter (fun q => q != pid)).isEmpty
          · simp only [hemp, if_true]
            refine List.mem_filter.mpr ⟨ha, ?_⟩
            simpa [bne] using hol
          · simp only [hemp, if_false, Bool.false_eq_true]
            refine List.mem_map.mpr ⟨a, ha, ?_⟩
            simp [hol]

/-- C6: a location update carrying an explicit conversationLabel that names
an existing area sets the player active conversation area to that area and
puts the player id into that area occupant list, with no condition on the
coordinates. -/
theorem updatePlayerLocation_explicit_label
    (st : TownState) (p : Player) (newLocation : UserLocation)
    (lbl : String) (area : ConversationArea)
    (hlbl : newLocation.conversationLabel = some lbl)
    (hfind : st.conversationAreas.find? (fun a => a.label == lbl) = some area)
    (hold : p.activeConversationArea ≠ some lbl) :
    (∀ q ∈ (updatePlayerLocation st p newLocation).state.players,
      q.id = p.id → q.activeConversationArea = some lbl) ∧
    (∃ a ∈ (updatePlayerLocation st p newLocation).state.conversationAreas,
      a.label = lbl ∧ p.id ∈ a.occupantsByID) := by
  have halbl : area.label = lbl := by
    have := List.find?_some hfind
    simpa [beq_iff_eq] using this
  have hne : (p.activeConversationArea == some area.label) = false := by
    apply beq_eq_false_iff_ne.mpr
    rw [halbl]
    exact hold
  simp only [updatePlayerLocation, hlbl, hfind, Option.map_some', hne,
    Bool.false_eq_true, if_false]
  constructor
  · intro q hq hid
    simp only [List.mem_map] at hq
    obtain ⟨q0, _, rfl⟩ := hq
    by_cases h0 : (q0.id == p.id)
    · simp [h0, halbl]
    · simp only [h0, Bool.false_eq_true, if_false] at hid ⊢
      exact absurd (beq_iff_eq.mpr hid) (by simpa using h0)
  · have hmem : area ∈ st.conversationAreas := List.mem_of_find?_eq_some hfind
    have hkeep := removeFromArea_keeps_area st.listeners st.conversationAreas
      p.activeConversationArea p.id area hmem (by rw [halbl]; exact hold)
    refine ⟨{ area with occupantsByID := area.occupantsByID ++ [p.id] }, ?_, ?_, ?_⟩
    · simp only [addToAreas]
      refine List.mem_map.mpr ⟨area, hkeep, ?_⟩
      simp
    · exact halbl
    · simp

/-- Witness for C6: the test player, with no prior area, reports the label
of the test area from coordinates outside its bounding box. -/
theorem updatePlayerLocation_explicit_label_witness :
    testLocOutside.conversationLabel = some "lbl" ∧
    testTownWithArea.conversationAreas.find? (fun a => a.label == "lbl") =
      some testArea ∧
    testPlayer.activeConversationArea ≠ some "lbl" ∧
    boxContains testArea.boundingBox testLocOutside.x testLocOutside.y = false ∧
    ((∀ q ∈ (updatePlayerLocation testTownWithArea testPlayer testLocOutside).state.players,
      q.id = testPlayer.id → q.activeConversationArea = some "lbl") ∧
    (∃ a ∈ (updatePlayerLocation testTownWithArea testPlayer testLocOutside).state.conversationAreas,
      a.label = "lbl" ∧ testPlayer.id ∈ a.occupantsByID)) :=
  ⟨by decide, by decide, by decide, by decide,
    updatePlayerLocation_explicit_label testTownWithArea testPlayer
      testLocOutside "lbl" testArea (by decide) (by decide) (by decide)⟩

/-- The empty delivery list broadcasts over any listener list. -/
theorem broadcasts_nil (ls : List String) : Broadcasts ls [] := by
  intro pr hpr
  simp at hpr

/-- notifyListeners broadcasts over its listener list. -/
theorem broadcasts_notify (ls : List String) (e : TownEvent) :
    Broadcasts ls (notifyListeners ls e) := by
  intro pr hpr
  simp only [notifyListeners, List.mem_map] at hpr
  obtain ⟨l0, hl0, rfl⟩ := hpr
  refine ⟨hl0, ?_⟩
  intro l2 hl2
  simp only [notifyListeners, List.mem_map]
  exact ⟨l2, hl2, rfl⟩

/-- Broadcast lists are closed under concatenation. -/
theorem broadcasts_append (ls : List String)
    (ns1 ns2 : List (String × TownEvent))
    (h1 : Broadcasts ls ns1) (h2 : Broadcasts ls ns2) :
    Broadcasts ls (ns1 ++ ns2) := by
  intro pr hpr
  rcases List.mem_append.mp hpr with h | h
  · obtain ⟨hf, hall⟩ := h1 pr h
    exact ⟨hf, fun l2 hl2 => List.mem_append.mpr (Or.inl (hall l2 hl2))⟩
  · obtain ⟨hf, hall⟩ := h2 pr h
    exact ⟨hf, fun l2 hl2 => List.mem_append.mpr (Or.inr (hall l2 hl2))⟩

/-- Broadcast lists are closed under flatMap over a family of broadcast
lists. -/
theorem broadcasts_flatMap {α : Type} (ls : List String) (l : List α)
    (f : α → List (String × TownEvent))
    (h : ∀ x ∈ l, Broadcasts ls (f x)) :
    Broadcasts ls (l.flatMap f) := by
  intro pr hpr
  obtain ⟨x, hx, hmem⟩ := List.mem_flatMap.mp hpr
  obtain ⟨hf, hall⟩ := h x hx pr hmem
  refine ⟨hf, ?_⟩
  intro l2 hl2
  exact List.mem_flatMap.mpr ⟨x, hx, hall l2 hl2⟩

/-- The removal notifications of removeFromArea broadcast over the listener
list. -/
theorem removeFromArea_broadcasts (ls : List String)
    (areas : List ConversationArea) (oldLabel : Option String)
    (pid : String) :
    Broadcasts ls (removeFromArea ls areas oldLabel pid).snd := by
  cases oldLabel with
  | none => exact broadcasts_nil ls
  | some ol =>
      simp only [removeFromArea]
      cases hfind : areas.find? (fun b => b.label == ol) with
      | none => exact broadcasts_nil ls
      | some oldA =>
          by_cases hemp : (oldA.occupantsByID.filter (fun q => q != pid)).isEmpty
          · simp only [hemp, if_true]
            exact broadcasts_notify ls _
          · simp only [hemp, if_false, Bool.false_eq_true]
            exact broadcasts_nil ls

/-- The arrival notifications of addToAreaNotes broadcast over the listener
list. -/
theorem addToAreaNotes_broadcasts (ls : List String)
    (newArea : Option ConversationArea) (pid : String) :
    Broadcasts ls (addToAreaNotes ls newArea pid) := by
  cases newArea with
  | none => exact broadcasts_nil ls
  | some na => exact broadcasts_notify ls _

/-- Every controller operation delivers its notifications as broadcasts
over the listeners subscribed when the operation starts. -/
theorem stepOp_broadcasts (env : TownEnv) (op : TownOp) (st : TownState) :
    Broadcasts st.listeners (stepOp env op st).notes := by
  cases op with
  | updatePlayerLocation p loc =>
      simp only [stepOp, updatePlayerLocation]
      split
      · exact broadcasts_notify _ _
      · exact broadcasts_append _ _ _
          (broadcasts_append _ _ _ (removeFromArea_broadcasts _ _ _ _)
            (addToAreaNotes_broadcasts _ _ _))
          (broadcasts_notify _ _)
  | destroySession s =>
      simp only [stepOp, destroySession]
      cases hfind : st.players.find? (fun p => p.id == s.player) with
      | none => exact broadcasts_nil _
      | some p =>
          exact broadcasts_append _ _ _ (removeFromArea_broadcasts _ _ _ _)
            (broadcasts_notify _ _)
  | addPlayer p =>
      simp only [stepOp, addPlayer]
      cases hv : env.videoToken st.coveyTownID p.id with
      | none => exact broadcasts_nil _
      | some vtok => exact broadcasts_notify _ _
  | disconnectAllPlayers =>
      simp only [stepOp, disconnectAllPlayers]
      exact broadcasts_notify _ _
  | updatePlayerSongs =>
      simp only [stepOp, updatePlayerSongs]
      refine broadcasts_flatMap _ _ _ ?_
      intro x _
      cases h : songQueryOutcome env st.coveyTownID x with
      | none => simp only [h]; exact broadcasts_nil _
      | some s => simp only [h]; exact broadcasts_notify _ _
  | changePlayerSong p song =>
      simp only [stepOp, changePlayerSong]
      split
      · exact broadcasts_notify _ _
      · exact broadcasts_nil _
  | onChatMessage m =>
      simp only [stepOp, onChatMessage]
      exact broadcasts_notify _ _

/-- No controller operation ever adds a listener: the listener list is
either preserved or cleared. -/
theorem stepOp_listeners (env : TownEnv) (op : TownOp) (st : TownState) :
    (stepOp env op st).state.listeners = st.listeners ∨
    (stepOp env op st).state.listeners = [] := by
  cases op with
  | updatePlayerLocation p loc =>
      simp only [stepOp, updatePlayerLocation]
      split <;> exact Or.inl rfl
  | destroySession s =>
      simp only [stepOp, destroySession]
      cases hfind : st.players.find? (fun p => p.id == s.player) <;>
        exact Or.inl rfl
  | addPlayer p =>
      simp only [stepOp, addPlayer]
      cases hv : env.videoToken st.coveyTownID p.id <;> exact Or.inl rfl
  | disconnectAllPlayers => exact Or.inr rfl
  | updatePlayerSongs => exact Or.inl rfl
  | changePlayerSong p song =>
      simp only [stepOp, changePlayerSong]
      split <;> exact Or.inl rfl
  | onChatMessage m => exact Or.inl rfl

/-- Over any operation sequence starting from a state that does not hold a
listener, that listener receives nothing. -/
theorem runOps_no_delivery_to_removed (env : TownEnv) (l : String) :
    ∀ (ops : List TownOp) (st : TownState), l ∉ st.listeners →
      ∀ pr ∈ (runOps env ops st).notes, pr.fst ≠ l := by
  intro ops
  induction ops with
  | nil =>
      intro st _ pr hpr
      simp [runOps] at hpr
  | cons op rest ih =>
      intro st hl pr hpr
      simp only [runOps, List.mem_append] at hpr
      rcases hpr with h | h
      · obtain ⟨hf, _⟩ := stepOp_broadcasts env op st pr h
        intro heq
        exact hl (heq ▸ hf)
      · have hnext : l ∉ (stepOp env op st).state.listeners := by
          rcases stepOp_listeners env op st with heq | heq
          · rw [heq]; exact hl
          · rw [heq]; simp
        exact ih (stepOp env op st).state hnext pr h

/-- C7: after removeTownListener l, no subsequent sequence of controller
operations (movement, disconnects, joins, town teardown, song updates, song
changes, chat) ever delivers a notification to l, while a listener still
subscribed when an operation runs receives every notification that the
operation emits. -/
theorem removeTownListener_isolation
    (env : TownEnv) (st st1 : TownState) (l l2 : String)
    (ops : List TownOp) (op : TownOp)
    (hl2 : l2 ∈ st1.listeners) :
    (∀ pr ∈ (runOps env ops (removeTownListener st l)).notes, pr.fst ≠ l) ∧
    (∀ pr ∈ (stepOp env op st1).notes,
      (l2, pr.snd) ∈ (stepOp env op st1).notes) := by
  constructor
  · refine runOps_no_delivery_to_removed env l ops (removeTownListener st l) ?_
    intro hmem
    have h2 := (List.mem_filter.mp hmem).2
    simp at h2
  · intro pr hpr
    exact ((stepOp_broadcasts env op st1 pr hpr).2) l2 hl2

/-- Witness for C7: removing the listener l2 from the test town, then
running a movement, a chat and a song change, delivers nothing to l2, while
the still-subscribed listener l1 receives every emitted event. -/
theorem removeTownListener_isolation_witness :
    "l1" ∈ testTown.listeners ∧
    ((∀ pr ∈ (runOps envPlaybackOk
        [TownOp.onChatMessage "hi",
          TownOp.changePlayerSong testPlayer testSong,
          TownOp.disconnectAllPlayers]
        (removeTownListener testTown "l2")).notes, pr.fst ≠ "l2") ∧
    (∀ pr ∈ (stepOp envPlaybackOk (TownOp.onChatMessage "hi") testTown).notes,
      ("l1", pr.snd) ∈ (stepOp envPlaybackOk (TownOp.onChatMessage "hi") testTown).notes)) :=
  ⟨by decide,
    removeTownListener_isolation envPlaybackOk testTown testTown "l2" "l1"
      [TownOp.onChatMessage "hi",
        TownOp.changePlayerSong testPlayer testSong,
        TownOp.disconnectAllPlayers]
      (TownOp.onChatMessage "hi") (by decide)⟩

/-- C4 (code bug): a delete request with a wrong password is reported as a
failure and leaves the registry unchanged, yet townDeleteHandler calls
SpotifyClient.removeTownFromClient unconditionally, so the town entry in the
town-to-player-token map is deleted anyway. -/
theorem townDeleteHandler_wrong_password_still_clears_spotify :
    (townDeleteHandler serverStateA deleteReqWrongPw).fst.isOK = false ∧
    (townDeleteHandler serverStateA deleteReqWrongPw).fst.message =
      some "Invalid password. Please double check your town update password." ∧
    (townDeleteHandler serverStateA deleteReqWrongPw).snd.store =
      serverStateA.store ∧
    mapGet "townA" serverStateA.spotify.townsToPlayerMaps ≠ none ∧
    mapGet "townA"
      (townDeleteHandler serverStateA deleteReqWrongPw).snd.spotify.townsToPlayerMaps =
      none := by
  refine ⟨?_, ?_, ?_, ?_, ?_⟩ <;> decide

/-- C5 counterexample: with an existing town whose video token provider
fails, townJoinHandler propagates the failure as an exception instead of
returning a failure envelope. -/
theorem townJoinHandler_propagates_video_failure :
    townJoinHandler envVideoFailA (fun _ => none) "p9"
        { store := [testTown], spotify := SpotifyState.mk [] }
        { userName := "u", coveyTownID := "townA", spotifySessionToken := none } =
      Except.error "video token provider failed" := by
  rfl

/-- C5 (amended): the list, create, delete and update handlers always return
a success flag with a payload or a human-readable message and never throw;
townJoinHandler returns a failure envelope for an unknown town id, but it
propagates an exception to its caller when the video token provider fails
and when the supplied linking credential is unparseable. -/
theorem townHandlers_envelope_policy
    (env : TownEnv) (parse : String → Option JsonValue)
    (freshPlayerId freshTownId freshPassword : String) (st : ServerState)
    (jreq1 jreq2 jreq3 : TownJoinRequest)
    (creq : TownCreateRequest) (dreq : TownDeleteRequest)
    (ureq : TownUpdateRequest)
    (townV townC : TownState) (cred vtok : String)
    (hmiss : getControllerForTown st.store jreq1.coveyTownID = none)
    (hfound : getControllerForTown st.store jreq2.coveyTownID = some townV)
    (hvid : env.videoToken townV.coveyTownID freshPlayerId = none)
    (hfound3 : getControllerForTown st.store jreq3.coveyTownID = some townC)
    (hvid3 : env.videoToken townC.coveyTownID freshPlayerId = some vtok)
    (hcred : jreq3.spotifySessionToken = some cred)
    (hparse : parse cred = none) :
    ((townListHandler st).fst.isOK = true ∧
      (townListHandler st).fst.response.isSome) ∧
    ((townCreateHandler freshTownId freshPassword st creq).fst.isOK = false →
      (townCreateHandler freshTownId freshPassword st creq).fst.message.isSome) ∧
    ((townDeleteHandler st dreq).fst.isOK = false →
      (townDeleteHandler st dreq).fst.message.isSome) ∧
    ((townUpdateHandler st ureq).fst.isOK = false →
      (townUpdateHandler st ureq).fst.message.isSome) ∧
    (townJoinHandler env parse freshPlayerId st jreq1 =
      Except.ok
        ({ isOK := false, message := some "Error: No such town", response := none }, st)) ∧
    (townJoinHandler env parse freshPlayerId st jreq2 =
      Except.error "video token provider failed") ∧
    (townJoinHandler env parse freshPlayerId st jreq3 =
      Except.error ("Error parsing token " ++ cred)) := by
  refine ⟨⟨rfl, rfl⟩, ?_, ?_, ?_, ?_, ?_, ?_⟩
  · intro h
    by_cases hn : creq.friendlyName.length == 0
    · simp [townCreateHandler, hn]
    · simp [townCreateHandler, hn] at h
  · intro h
    cases hb : (deleteTown st.store dreq.coveyTownID dreq.coveyTownPassword).fst with
    | true => simp [townDeleteHandler, hb] at h
    | false => simp [townDeleteHandler, hb]
  · intro h
    cases hb : (updateTown st.store ureq.coveyTownID ureq.coveyTownPassword
        ureq.friendlyName ureq.isPubliclyListed).fst with
    | true => simp [townUpdateHandler, hb] at h
    | false => simp [townUpdateHandler, hb]
  · simp [townJoinHandler, hmiss]
  · simp [townJoinHandler, hfound, addPlayer, newPlayerNamed, hvid]
  · simp [townJoinHandler, hfound3, addPlayer, newPlayerNamed, hvid3, hcred,
      addTownPlayerToClient, hparse]

/-- Witness for C5 (amended) at concrete server states, requests and
oracles. -/
theorem townHandlers_envelope_policy_witness :
    getControllerForTown serverStateAB.store "nope" = none ∧
    getControllerForTown serverStateAB.store "townA" = some testTown ∧
    envVideoFailA.videoToken testTown.coveyTownID "p9" = none ∧
    getControllerForTown serverStateAB.store "townB" = some testTownB ∧
    envVideoFailA.videoToken testTownB.coveyTownID "p9" = some "vt" ∧
    (((townListHandler serverStateAB).fst.isOK = true ∧
      (townListHandler serverStateAB).fst.response.isSome) ∧
    ((townCreateHandler "t9" "pw9" serverStateAB
        { friendlyName := "", isPubliclyListed := true }).fst.isOK = false →
      (townCreateHandler "t9" "pw9" serverStateAB
        { friendlyName := "", isPubliclyListed := true }).fst.message.isSome) ∧
    ((townDeleteHandler serverStateAB deleteReqWrongPw).fst.isOK = false →
      (townDeleteHandler serverStateAB deleteReqWrongPw).fst.message.isSome) ∧
    ((townUpdateHandler serverStateAB
        { coveyTownID := "townA", coveyTownPassword := "wrong",
          friendlyName := none, isPubliclyListed := none }).fst.isOK = false →
      (townUpdateHandler serverStateAB
        { coveyTownID := "townA", coveyTownPassword := "wrong",
          friendlyName := none, isPubliclyListed := none }).fst.message.isSome) ∧
    (townJoinHandler envVideoFailA (fun _ => none) "p9" serverStateAB
        { userName := "u", coveyTownID := "nope", spotifySessionToken := none } =
      Except.ok
        ({ isOK := false, message := some "Error: No such town", response := none },
          serverStateAB)) ∧
    (townJoinHandler envVideoFailA (fun _ => none) "p9" serverStateAB
        { userName := "u", coveyTownID := "townA", spotifySessionToken := none } =
      Except.error "video token provider failed") ∧
    (townJoinHandler envVideoFailA (fun _ => none) "p9" serverStateAB
        { userName := "u", coveyTownID := "townB", spotifySessionToken := some "bad" } =
      Except.error ("Error parsing token " ++ "bad"))) :=
  ⟨by decide, by decide, by decide, by decide, by decide,
    townHandlers_envelope_policy envVideoFailA (fun _ => none) "p9" "t9" "pw9"
      serverStateAB
      { userName := "u", coveyTownID := "nope", spotifySessionToken := none }
      { userName := "u", coveyTownID := "townA", spotifySessionToken := none }
      { userName := "u", coveyTownID := "townB", spotifySessionToken := some "bad" }
      { friendlyName := "", isPubliclyListed := true }
      deleteReqWrongPw
      { coveyTownID := "townA", coveyTownPassword := "wrong",
        friendlyName := none, isPubliclyListed := none }
      testTown testTownB "bad" "vt"
      (by decide) (by decide) (by decide) (by decide) (by decide) rfl rfl⟩

end CoveyTown
